import Mathlib

/-!
Verification of the keep-alive / supervisor infrastructure of the repository.

The repository runs two long-lived bot workers under a supervisor and exposes
a small HTTP status surface (`/`, `/health`, `/keep-alive`, `/ping`, and, in
`keep_bot_alive_24x7.py`, `/restart-bots`).  We embed the state of each
server/supervisor implementation shallowly:

* `BotKeepAlive` — the `BotKeepAlive24x7` class of `keep_bot_alive_24x7.py`
  (subprocess workers, restart counter, ping counter, Flask routes);
* `CloudManager` — the `CloudRunBotManager` class of `run_cloud_24_7.py`;
* `IntegratedBot` — the `IntegratedBot24x7` class of
  `run_bots_24x7_integrated.py` (thread workers, no restart counter);
* `WebserverState` — the module-level globals of `webserver.py`;
* `ExternalMonitor` / the `simple_external_pinger` functions — the two
  external pinger utilities.

Timestamps are modelled as natural numbers; `datetime.now()` becomes an
explicit `now` parameter.  `datetime.isoformat` and `str(timedelta)` are
modelled by `isoFormat` / `formatDuration` (their exact text never matters to
the properties below).  Subprocess handles are `Proc` records carrying a pid
and an exited flag (`poll() is None` iff `exited = false`).  Nondeterministic
launch outcomes (does the spawned worker survive its grace window?) are an
explicit `LaunchEnv` argument.
-/

namespace KeepAlive

/-- A JSON scalar value, enough for the bodies the servers produce. -/
inductive JVal where
  | s : String → JVal
  | n : Nat → JVal
  | b : Bool → JVal
deriving DecidableEq, Repr

/-- An HTTP response body: plain text or a JSON object (ordered field list,
as produced by `jsonify`). -/
inductive Body where
  | text : String → Body
  | json : List (String × JVal) → Body
deriving DecidableEq, Repr

/-- An HTTP response: status code plus body. -/
structure HttpResponse where
  code : Nat
  body : Body
deriving DecidableEq, Repr

/-- The field names of a JSON response, in order ([] for text bodies). -/
def jsonKeys (r : HttpResponse) : List String :=
  match r.body with
  | .text _ => []
  | .json fs => fs.map Prod.fst

/-- Look a field up in a JSON response (none for text bodies / missing keys). -/
def jsonLookup (r : HttpResponse) (k : String) : Option JVal :=
  match r.body with
  | .text _ => none
  | .json fs => fs.lookup k

/-- Model of `datetime.isoformat()` on our abstract timestamps. -/
def isoFormat (t : Nat) : String := toString t

/-- Model of `str(timedelta)` on an abstract duration. -/
def formatDuration (d : Nat) : String := toString d

/-- A subprocess handle: `poll() is None` (still running) iff `exited = false`. -/
structure Proc where
  pid : Nat
  exited : Bool
deriving DecidableEq, Repr

/-- State of the `BotKeepAlive24x7` class (`keep_bot_alive_24x7.py`, `__init__`):
worker process handles, running flag, restart counter, start time, last-ping
time and ping counter. -/
structure BotKeepAlive where
  teacher_process : Option Proc
  student_process : Option Proc
  running : Bool
  restart_count : Nat
  start_time : Nat
  last_ping : Nat
  ping_count : Nat
deriving DecidableEq, Repr

/-- `BotKeepAlive24x7.__init__` at time `t0`: no processes yet, running,
zero counters, `start_time = last_ping = now`. -/
def initState (t0 : Nat) : BotKeepAlive :=
  { teacher_process := none
    student_process := none
    running := true
    restart_count := 0
    start_time := t0
    last_ping := t0
    ping_count := 0 }

/-- `self.teacher_process and self.teacher_process.poll() is None`. -/
def teacherAlive (s : BotKeepAlive) : Bool :=
  match s.teacher_process with
  | none => false
  | some p => !p.exited

/-- `self.student_process and self.student_process.poll() is None`. -/
def studentAlive (s : BotKeepAlive) : Bool :=
  match s.student_process with
  | none => false
  | some p => !p.exited

/-- The `/` route of `keep_bot_alive_24x7.py`. -/
def home : HttpResponse :=
  { code := 200, body := .text "🤖 Telegram Quiz Bot is running 24/7! 🎓" }

/-- The `/health` route of `keep_bot_alive_24x7.py`: status is `healthy` when
both workers poll as alive, otherwise `partial`; reports uptime, per-worker
flags, restart and ping counters and timestamps. -/
def health (s : BotKeepAlive) (now : Nat) : HttpResponse :=
  let teacher_alive := teacherAlive s
  let student_alive := studentAlive s
  { code := 200
    body := .json [
      ("status", .s (if teacher_alive && student_alive then "healthy" else "partial")),
      ("uptime_seconds", .n (now - s.start_time)),
      ("uptime_formatted", .s (formatDuration (now - s.start_time))),
      ("teacher_bot_running", .b teacher_alive),
      ("student_bot_running", .b student_alive),
      ("restart_count", .n s.restart_count),
      ("last_ping", .s (isoFormat s.last_ping)),
      ("ping_count", .n s.ping_count),
      ("timestamp", .s (isoFormat now)) ] }

/-- The `/keep-alive` route of `keep_bot_alive_24x7.py`: sets
`last_ping = now`, increments `ping_count`, and answers with the updated
counter. -/
def keep_alive (s : BotKeepAlive) (now : Nat) : BotKeepAlive × HttpResponse :=
  let s' := { s with last_ping := now, ping_count := s.ping_count + 1 }
  (s', { code := 200
         body := .json [
           ("status", .s "alive"),
           ("message", .s "Bot is running 24/7"),
           ("ping_count", .n s'.ping_count),
           ("timestamp", .s (isoFormat s'.last_ping)),
           ("uptime", .s (formatDuration (now - s.start_time))) ] })

/-- The `/ping` route: literal text `pong`. -/
def pingRoute : HttpResponse :=
  { code := 200, body := .text "pong" }

/-- Outcome environment for launching the two workers: the pid the OS hands
each `Popen`, and whether the process is still alive when it is polled after
the grace-window sleep. -/
structure LaunchEnv where
  teacherPid : Nat
  teacherSurvives : Bool
  studentPid : Nat
  studentSurvives : Bool
deriving DecidableEq, Repr

/-- Terminating a tracked process handle (it keeps its pid, is now exited). -/
def killProc : Option Proc → Option Proc
  | none => none
  | some p => some { p with exited := true }

/-- `kill_existing_bots`: `pkill -f TelegramBot.py` / `pkill -f StudentBot.py`
(or `taskkill python.exe` on Windows) terminates every process matching the
bot scripts — in particular both tracked handles, alive or not. -/
def kill_existing_bots (s : BotKeepAlive) : BotKeepAlive :=
  { s with teacher_process := killProc s.teacher_process
           student_process := killProc s.student_process }

/-- `start_teacher_bot`: `Popen` a fresh teacher process, sleep through the
grace window, succeed iff it still polls as alive. -/
def start_teacher_bot (s : BotKeepAlive) (env : LaunchEnv) : BotKeepAlive × Bool :=
  ({ s with teacher_process := some { pid := env.teacherPid, exited := !env.teacherSurvives } },
   env.teacherSurvives)

/-- `start_student_bot`: as `start_teacher_bot` for the student worker. -/
def start_student_bot (s : BotKeepAlive) (env : LaunchEnv) : BotKeepAlive × Bool :=
  ({ s with student_process := some { pid := env.studentPid, exited := !env.studentSurvives } },
   env.studentSurvives)

/-- `restart_bots`: increment `restart_count`, kill existing processes, start
both workers fresh; succeed iff both launches succeeded. -/
def restart_bots (s : BotKeepAlive) (env : LaunchEnv) : BotKeepAlive × Bool :=
  let s1 := { s with restart_count := s.restart_count + 1 }
  let s2 := kill_existing_bots s1
  let (s3, teacher_ok) := start_teacher_bot s2 env
  let (s4, student_ok) := start_student_bot s3 env
  (s4, teacher_ok && student_ok)

/-- The `/restart-bots` route: runs `restart_bots` and reports the result. -/
def restart_bots_endpoint (s : BotKeepAlive) (env : LaunchEnv) :
    BotKeepAlive × HttpResponse :=
  let (s', success) := restart_bots s env
  (s', { code := 200
         body := .json [
           ("status", .s (if success then "success" else "failed")),
           ("message", .s (if success then "Bots restarted" else "Failed to restart bots")),
           ("restart_count", .n s'.restart_count) ] })

/-- Environment for one `monitor_bots_loop` iteration: whether the liveness
check raises this time (a `PollTransientError`), and the launch outcomes in
case a restart is triggered. -/
structure MonitorEnv where
  checkThrows : Bool
  launch : LaunchEnv
deriving DecidableEq, Repr

/-- One iteration of `monitor_bots_loop` (`keep_bot_alive_24x7.py`): poll both
workers; if either is dead, `restart_bots`, and on a failed restart sleep an
extra 30 s before the regular 120 s poll sleep; any exception in the body is
caught, logged, and followed by a 60 s sleep.  Returns the new state and the
number of seconds until the next iteration begins. -/
def monitor_iter (s : BotKeepAlive) (env : MonitorEnv) : BotKeepAlive × Nat :=
  if env.checkThrows then (s, 60)
  else
    let teacher_alive := teacherAlive s
    let student_alive := studentAlive s
    if !teacher_alive || !student_alive then
      let (s', ok) := restart_bots s env.launch
      if !ok then (s', 30 + 120) else (s', 120)
    else (s, 120)

/-- The launch part of `BotKeepAlive24x7.start`: clear existing bots, start
both workers (server/thread startup and logging omitted). -/
def startSystem (s : BotKeepAlive) (env : LaunchEnv) : BotKeepAlive :=
  let s1 := kill_existing_bots s
  let (s2, _) := start_teacher_bot s1 env
  let (s3, _) := start_student_bot s2 env
  s3

/-- `BotKeepAlive24x7.stop`: clear the running flag and terminate both
tracked processes. -/
def stopSystem (s : BotKeepAlive) : BotKeepAlive :=
  { s with running := false
           teacher_process := killProc s.teacher_process
           student_process := killProc s.student_process }

/-- Every operation that can touch a `BotKeepAlive24x7` instance: the five
HTTP handlers, one supervisor-loop iteration, system start and stop.
(The self-ping loop's effect is a `keepAlive` operation: it is an HTTP GET
of `/keep-alive`.) -/
inductive Op where
  | home
  | health (now : Nat)
  | ping
  | keepAlive (now : Nat)
  | restartBots (env : LaunchEnv)
  | monitorIter (env : MonitorEnv)
  | start (env : LaunchEnv)
  | stop
deriving DecidableEq, Repr

/-- State transition of one operation. -/
def step (s : BotKeepAlive) : Op → BotKeepAlive
  | .home => s
  | .health _ => s
  | .ping => s
  | .keepAlive now => (keep_alive s now).1
  | .restartBots env => (restart_bots_endpoint s env).1
  | .monitorIter env => (monitor_iter s env).1
  | .start env => startSystem s env
  | .stop => stopSystem s

/-- Run a sequence of operations. -/
def run (s : BotKeepAlive) : List Op → BotKeepAlive
  | [] => s
  | op :: ops => run (step s op) ops

/-- Apply `keep_alive` once per timestamp in the list (N handler calls). -/
def applyKeepAlives (s : BotKeepAlive) : List Nat → BotKeepAlive
  | [] => s
  | t :: ts => applyKeepAlives (keep_alive s t).1 ts

/-- The routes the `keep_bot_alive_24x7.py` Flask app exposes. -/
inductive Route where
  | home
  | health
  | ping
  | keepAlive
  | restartBots
deriving DecidableEq, Repr

/-- Dispatch one HTTP request on the `keep_bot_alive_24x7.py` app: the
resulting state and response. -/
def handleRoute (r : Route) (s : BotKeepAlive) (now : Nat) (env : LaunchEnv) :
    BotKeepAlive × HttpResponse :=
  match r with
  | .home => (s, home)
  | .health => (s, health s now)
  | .ping => (s, pingRoute)
  | .keepAlive => keep_alive s now
  | .restartBots => restart_bots_endpoint s env

/-! ### `run_cloud_24_7.py` — the `CloudRunBotManager` class -/

/-- State of `CloudRunBotManager` (`run_cloud_24_7.py`, `__init__`): worker
process handles, running flag, restart counter, start time.  (It has no ping
counter; pings go to `webserver.py`.) -/
structure CloudManager where
  teacher_process : Option Proc
  student_process : Option Proc
  running : Bool
  restart_count : Nat
  start_time : Nat
deriving DecidableEq, Repr

/-- `check_bot_health`, teacher half. -/
def cloudTeacherAlive (s : CloudManager) : Bool :=
  match s.teacher_process with
  | none => false
  | some p => !p.exited

/-- `check_bot_health`, student half. -/
def cloudStudentAlive (s : CloudManager) : Bool :=
  match s.student_process with
  | none => false
  | some p => !p.exited

/-- `CloudRunBotManager.kill_existing_bots` (same pkill/taskkill as in
`keep_bot_alive_24x7.py`). -/
def cloud_kill_existing_bots (s : CloudManager) : CloudManager :=
  { s with teacher_process := killProc s.teacher_process
           student_process := killProc s.student_process }

/-- `CloudRunBotManager.start_teacher_bot`. -/
def cloud_start_teacher_bot (s : CloudManager) (env : LaunchEnv) : CloudManager × Bool :=
  ({ s with teacher_process := some { pid := env.teacherPid, exited := !env.teacherSurvives } },
   env.teacherSurvives)

/-- `CloudRunBotManager.start_student_bot`. -/
def cloud_start_student_bot (s : CloudManager) (env : LaunchEnv) : CloudManager × Bool :=
  ({ s with student_process := some { pid := env.studentPid, exited := !env.studentSurvives } },
   env.studentSurvives)

/-- `CloudRunBotManager.restart_bots`: increment the counter, kill existing
processes, relaunch both. -/
def cloud_restart_bots (s : CloudManager) (env : LaunchEnv) : CloudManager × Bool :=
  let s1 := { s with restart_count := s.restart_count + 1 }
  let s2 := cloud_kill_existing_bots s1
  let (s3, teacher_ok) := cloud_start_teacher_bot s2 env
  let (s4, student_ok) := cloud_start_student_bot s3 env
  (s4, teacher_ok && student_ok)

/-- One iteration of `CloudRunBotManager.monitor_bots`: same shape as
`monitor_iter` (30 s extra sleep on a failed restart, 60 s sleep after a
caught exception, 120 s poll interval). -/
def cloudMonitorIter (s : CloudManager) (env : MonitorEnv) : CloudManager × Nat :=
  if env.checkThrows then (s, 60)
  else
    let teacher_alive := cloudTeacherAlive s
    let student_alive := cloudStudentAlive s
    if !teacher_alive || !student_alive then
      let (s', ok) := cloud_restart_bots s env.launch
      if !ok then (s', 30 + 120) else (s', 120)
    else (s, 120)

/-! ### `run_bots_24x7_integrated.py` — the `IntegratedBot24x7` class

Workers are threads in the same process.  The class tracks per-worker
`teacher_running` / `student_running` flags and thread handles; it has **no**
restart counter of any kind. -/

/-- State of `IntegratedBot24x7` (`__init__`): running flag, start time and
ping data, per-worker running flags, and whether each worker thread is alive. -/
structure IntegratedBot where
  running : Bool
  start_time : Nat
  last_ping : Nat
  ping_count : Nat
  teacher_running : Bool
  student_running : Bool
  teacher_thread_alive : Bool
  student_thread_alive : Bool
deriving DecidableEq, Repr

/-- `start_teacher_bot_thread`: spawn the `run_teacher` thread; after the
grace sleep, if the import/startup succeeded the thread is polling with
`teacher_running = True`, otherwise the exception handler has set
`teacher_running = False` and the thread has exited. -/
def start_teacher_bot_thread (s : IntegratedBot) (ok : Bool) : IntegratedBot :=
  { s with teacher_running := ok, teacher_thread_alive := ok }

/-- `start_student_bot_thread`, analogously. -/
def start_student_bot_thread (s : IntegratedBot) (ok : Bool) : IntegratedBot :=
  { s with student_running := ok, student_thread_alive := ok }

/-- `restart_teacher_bot`: just `start_teacher_bot_thread` again (any
exception is caught and logged).  No counter is touched. -/
def restart_teacher_bot (s : IntegratedBot) (ok : Bool) : IntegratedBot :=
  start_teacher_bot_thread s ok

/-- `restart_student_bot`, analogously. -/
def restart_student_bot (s : IntegratedBot) (ok : Bool) : IntegratedBot :=
  start_student_bot_thread s ok

/-- One iteration of the integrated `monitor_bots_loop`: a worker is
restarted only when its thread has died while its running flag is still set;
the flag is cleared first, then the relaunch is attempted (outcome `tOk` /
`sOk`). -/
def integratedMonitorIter (s : IntegratedBot) (tOk sOk : Bool) : IntegratedBot :=
  let s1 :=
    if !s.teacher_thread_alive && s.teacher_running then
      restart_teacher_bot { s with teacher_running := false } tOk
    else s
  let s2 :=
    if !s1.student_thread_alive && s1.student_running then
      restart_student_bot { s1 with student_running := false } sOk
    else s1
  s2

/-- The integrated `/health` route: status from the two running flags; note
there is no `restart_count` field in the body. -/
def integratedHealth (s : IntegratedBot) (now : Nat) : HttpResponse :=
  { code := 200
    body := .json [
      ("status", .s (if s.teacher_running && s.student_running then "healthy" else "partial")),
      ("uptime_seconds", .n (now - s.start_time)),
      ("uptime_formatted", .s (formatDuration (now - s.start_time))),
      ("teacher_bot_running", .b s.teacher_running),
      ("student_bot_running", .b s.student_running),
      ("last_ping", .s (isoFormat s.last_ping)),
      ("ping_count", .n s.ping_count),
      ("timestamp", .s (isoFormat now)) ] }

/-- The integrated `/keep-alive` route: updates the ping data and answers
with seven fields (the five shared ones plus the two worker flags). -/
def integratedKeepAlive (s : IntegratedBot) (now : Nat) : IntegratedBot × HttpResponse :=
  let s' := { s with last_ping := now, ping_count := s.ping_count + 1 }
  (s', { code := 200
         body := .json [
           ("status", .s "alive"),
           ("message", .s "Bot is running 24/7"),
           ("ping_count", .n s'.ping_count),
           ("timestamp", .s (isoFormat s'.last_ping)),
           ("uptime", .s (formatDuration (now - s.start_time))),
           ("teacher_running", .b s.teacher_running),
           ("student_running", .b s.student_running) ] })

/-- How `simple_external_pinger.check_health` reads the restart counter out
of a `/health` body: `data.get('restart_count', 0)`. -/
def readRestartCount (r : HttpResponse) : Nat :=
  match jsonLookup r "restart_count" with
  | some (.n k) => k
  | _ => 0

/-! ### `webserver.py` — module-level globals and routes -/

/-- The module-level globals of `webserver.py`: `bot_start_time`,
`last_keepalive_ping`, `keepalive_count`. -/
structure WebserverState where
  bot_start_time : Nat
  last_keepalive_ping : Nat
  keepalive_count : Nat
deriving DecidableEq, Repr

/-- `webserver.py`'s `/` route. -/
def webserverHome : HttpResponse :=
  { code := 200, body := .text "🤖 Telegram Quiz Bot is running! 🎓" }

/-- `webserver.py`'s `/health` route: status is always `healthy` (this server
tracks no workers); reports uptime and the keep-alive data. -/
def webserverHealth (s : WebserverState) (now : Nat) : HttpResponse :=
  { code := 200
    body := .json [
      ("status", .s "healthy"),
      ("uptime_seconds", .n (now - s.bot_start_time)),
      ("uptime_formatted", .s (formatDuration (now - s.bot_start_time))),
      ("last_keepalive", .s (isoFormat s.last_keepalive_ping)),
      ("keepalive_count", .n s.keepalive_count),
      ("timestamp", .s (isoFormat now)) ] }

/-- `webserver.py`'s `/keep-alive` route (`keep_alive_endpoint`): updates the
globals and answers with four fields — there is no `uptime` field. -/
def webserverKeepAlive (s : WebserverState) (now : Nat) : WebserverState × HttpResponse :=
  let s' := { s with last_keepalive_ping := now, keepalive_count := s.keepalive_count + 1 }
  (s', { code := 200
         body := .json [
           ("status", .s "alive"),
           ("message", .s "Bot is running"),
           ("ping_count", .n s'.keepalive_count),
           ("timestamp", .s (isoFormat s'.last_keepalive_ping)) ] })

/-- `webserver.py`'s `/ping` route. -/
def webserverPing : HttpResponse :=
  { code := 200, body := .text "pong" }

/-- The routes `webserver.py` exposes. -/
inductive WebRoute where
  | home
  | health
  | ping
  | keepAlive
deriving DecidableEq, Repr

/-- Dispatch one HTTP request on the `webserver.py` app. -/
def webserverHandle (r : WebRoute) (s : WebserverState) (now : Nat) :
    WebserverState × HttpResponse :=
  match r with
  | .home => (s, webserverHome)
  | .health => (s, webserverHealth s now)
  | .ping => (s, webserverPing)
  | .keepAlive => webserverKeepAlive s now

/-! ### Timed event model of `monitor_bots_loop` (`keep_bot_alive_24x7.py`)

For the cooldown property we record, with explicit timestamps, what one
iteration of the monitor loop does.  The delays come verbatim from the
source's sleeps: `kill_existing_bots` sleeps 2 s, each `start_*_bot` sleeps
5 s before polling the new process, a failed restart is followed by
`time.sleep(30)`, and every iteration ends with `time.sleep(120)` (60 s after
a caught exception). -/

/-- An externally visible action of the supervisor loop. -/
inductive Ev where
  | kill
  | launchTeacher (ok : Bool)
  | launchStudent (ok : Bool)
deriving DecidableEq, Repr

/-- Is this event a launch attempt? -/
def isLaunch : Ev → Bool
  | .kill => false
  | .launchTeacher _ => true
  | .launchStudent _ => true

/-- `restart_bots` starting at time `t`: kill at `t` (2 s), teacher `Popen`
at `t+2` (5 s grace, failure known at `t+7`), student `Popen` at `t+7` (5 s
grace); returns the events, the completion time `t+12` and the success flag. -/
def restartEvents (t : Nat) (env : LaunchEnv) : List (Nat × Ev) × Nat × Bool :=
  ([(t, .kill),
    (t + 2, .launchTeacher env.teacherSurvives),
    (t + 7, .launchStudent env.studentSurvives)],
   t + 12,
   env.teacherSurvives && env.studentSurvives)

/-- One `monitor_bots_loop` iteration starting at time `t` with the given
polled liveness: its timed events and the start time of the next iteration. -/
def monitorIterEvents (t : Nat) (teacher_alive student_alive : Bool)
    (env : LaunchEnv) : List (Nat × Ev) × Nat :=
  if teacher_alive && student_alive then ([], t + 120)
  else
    let (evs, tEnd, ok) := restartEvents t env
    if !ok then (evs, tEnd + 30 + 120) else (evs, tEnd + 120)

/-! ### `external_keepalive_monitor.py` — the `ExternalKeepAliveMonitor` class -/

/-- The outcome of one HTTP request made by a pinger: a status code, or one
of the exception cases the source distinguishes. -/
inductive ReqResult where
  | status (code : Nat)
  | timeout
  | connError
  | otherError
deriving DecidableEq, Repr

/-- Counters of `ExternalKeepAliveMonitor` (`__init__`). -/
structure ExternalMonitor where
  ping_count : Nat
  success_count : Nat
  error_count : Nat
deriving DecidableEq, Repr

/-- `ping_service`: increment `ping_count` first; on a 200 increment
`success_count` and succeed; on any other status just fail; on an exception
increment `error_count` and fail. -/
def ping_service (s : ExternalMonitor) (r : ReqResult) : ExternalMonitor × Bool :=
  let s1 := { s with ping_count := s.ping_count + 1 }
  match r with
  | .status code =>
      if code == 200 then ({ s1 with success_count := s1.success_count + 1 }, true)
      else (s1, false)
  | _ => ({ s1 with error_count := s1.error_count + 1 }, false)

/-- `check_health` of `external_keepalive_monitor.py`: succeeds iff the
`/health` request came back with status 200 (the body is only logged). -/
def em_check_health (r : ReqResult) : Bool :=
  match r with
  | .status code => code == 200
  | _ => false

/-- `run_once`: check health, then send the keep-alive ping; succeed iff
both succeeded. -/
def run_once (s : ExternalMonitor) (healthResp pingResp : ReqResult) :
    ExternalMonitor × Bool :=
  let health_ok := em_check_health healthResp
  let (s', ping_ok) := ping_service s pingResp
  (s', health_ok && ping_ok)

/-- `main` in `once` mode: `sys.exit(0 if success else 1)`. -/
def emOnceExit (s : ExternalMonitor) (healthResp pingResp : ReqResult) : Nat :=
  if (run_once s healthResp pingResp).2 then 0 else 1

/-- The divisions `print_stats` evaluates, as a list of divisors: the
success-rate expression divides by `ping_count` only under its
`if self.ping_count > 0` guard. -/
def print_stats_divisors (s : ExternalMonitor) : List Nat :=
  if s.ping_count > 0 then [s.ping_count] else []

/-- One `run_continuous` iteration: `ping_service`, and on every 6th ping a
health check plus `print_stats`.  Returns the new counters and the divisors
of the divisions evaluated this iteration. -/
def em_continuous_iter (s : ExternalMonitor) (pingResp : ReqResult) :
    ExternalMonitor × List Nat :=
  let (s', _) := ping_service s pingResp
  if s'.ping_count % 6 == 0 then (s', print_stats_divisors s') else (s', [])

/-- Run `run_continuous` over a list of ping outcomes, collecting every
divisor of every division evaluated. -/
def em_continuous_divisors (s : ExternalMonitor) : List ReqResult → List Nat
  | [] => []
  | r :: rs =>
      let (s', ds) := em_continuous_iter s r
      ds ++ em_continuous_divisors s' rs

/-! ### `simple_external_pinger.py` -/

/-- What a `/health` response carries for `simple_external_pinger.check_health`:
the status code and the two worker flags read from the body with
`data.get(..., False)`. -/
structure SpHealthResp where
  code : Nat
  teacher_running : Bool
  student_running : Bool
deriving DecidableEq, Repr

/-- `ping_bot`: succeeds iff the `/keep-alive` request returned 200. -/
def sp_ping_bot (r : ReqResult) : Bool :=
  match r with
  | .status code => code == 200
  | _ => false

/-- `simple_external_pinger.check_health`: on a 200 it returns
`teacher_running and student_running` from the body; any other status or
exception is a failure.  (`none` models an exception.) -/
def sp_check_health (r : Option SpHealthResp) : Bool :=
  match r with
  | some resp => if resp.code == 200 then resp.teacher_running && resp.student_running else false
  | none => false

/-- `main` with `interval == 0` (single test): exit 0 iff both the health
check and the keep-alive ping succeeded, else exit 1. -/
def spSingleExit (healthResp : Option SpHealthResp) (pingResp : ReqResult) : Nat :=
  let health_ok := sp_check_health healthResp
  let ping_ok := sp_ping_bot pingResp
  if health_ok && ping_ok then 0 else 1

/-- The continuous loop of `simple_external_pinger.main`: starting from the
local counters `ping_count`/`success_count`, each iteration increments
`ping_count`, counts a success, and on every 6th ping evaluates
`(success_count / ping_count) * 100` with no guard.  We collect the divisor
of every division so evaluated. -/
def spLoopDivisors (ping_count success_count : Nat) : List Bool → List Nat
  | [] => []
  | ok :: rest =>
      let pc := ping_count + 1
      let sc := if ok then success_count + 1 else success_count
      let ds := if pc % 6 == 0 then [pc] else []
      ds ++ spLoopDivisors pc sc rest

/-- The divisions of the `KeyboardInterrupt` handler's final-stats line:
guarded by `if ping_count > 0 else 0`. -/
def spFinalDivisors (ping_count : Nat) : List Nat :=
  if ping_count > 0 then [ping_count] else []

/-- Initial state of the `webserver.py` globals at time `t0`. -/
def webserverInit (t0 : Nat) : WebserverState :=
  { bot_start_time := t0, last_keepalive_ping := t0, keepalive_count := 0 }

/-- Apply `keep_alive_endpoint` once per timestamp in the list. -/
def applyWebKeepAlives (s : WebserverState) : List Nat → WebserverState
  | [] => s
  | t :: ts => applyWebKeepAlives (webserverKeepAlive s t).1 ts

/-! ### Concrete example states (used by the counterexample theorems) -/

/-- An integrated-supervisor state whose teacher thread has died while its
running flag is still set (so the next monitor iteration relaunches it). -/
def integratedDeadTeacher : IntegratedBot :=
  { running := true, start_time := 0, last_ping := 0, ping_count := 0,
    teacher_running := true, student_running := true,
    teacher_thread_alive := false, student_thread_alive := true }

/-- A `BotKeepAlive24x7` state with both workers alive. -/
def bothAliveState : BotKeepAlive :=
  { teacher_process := some { pid := 1, exited := false }
    student_process := some { pid := 2, exited := false }
    running := true, restart_count := 0, start_time := 0, last_ping := 0, ping_count := 0 }

/-- A launch environment in which both launches succeed. -/
def okLaunch : LaunchEnv :=
  { teacherPid := 3, teacherSurvives := true, studentPid := 4, studentSurvives := true }

/-- A launch environment in which the teacher launch fails (the new teacher
process exits within its grace window) and the student launch succeeds. -/
def teacherFailLaunch : LaunchEnv :=
  { teacherPid := 3, teacherSurvives := false, studentPid := 4, studentSurvives := true }

/-! ## Helper lemmas -/

theorem applyKeepAlives_ping_count (ts : List Nat) (s : BotKeepAlive) :
    (applyKeepAlives s ts).ping_count = s.ping_count + ts.length := by
  induction ts generalizing s with
  | nil => simp [applyKeepAlives]
  | cons t ts ih =>
      simp [applyKeepAlives, keep_alive, ih]
      omega

theorem applyWebKeepAlives_count (ts : List Nat) (s : WebserverState) :
    (applyWebKeepAlives s ts).keepalive_count = s.keepalive_count + ts.length := by
  induction ts generalizing s with
  | nil => simp [applyWebKeepAlives]
  | cons t ts ih =>
      simp [applyWebKeepAlives, webserverKeepAlive, ih]
      omega

theorem health_lookup_ping_count (s : BotKeepAlive) (now : Nat) :
    jsonLookup (health s now) "ping_count" = some (.n s.ping_count) := by
  rfl

theorem health_lookup_status (s : BotKeepAlive) (now : Nat) :
    jsonLookup (health s now) "status" =
      some (.s (if teacherAlive s && studentAlive s then "healthy" else "partial")) := by
  rfl

theorem step_ping_count_mono (s : BotKeepAlive) (op : Op) :
    s.ping_count ≤ (step s op).ping_count := by
  cases op with
  | home => exact Nat.le_refl _
  | health _ => exact Nat.le_refl _
  | ping => exact Nat.le_refl _
  | keepAlive now => simp [step, keep_alive]
  | restartBots env =>
      simp [step, restart_bots_endpoint, restart_bots, kill_existing_bots,
        start_teacher_bot, start_student_bot]
  | monitorIter env =>
      simp only [step, monitor_iter]
      split
      · exact Nat.le_refl _
      · split
        · split <;>
            simp [restart_bots, kill_existing_bots, start_teacher_bot, start_student_bot]
        · exact Nat.le_refl _
  | start env =>
      simp [step, startSystem, kill_existing_bots, start_teacher_bot, start_student_bot]
  | stop => simp [step, stopSystem]

theorem step_restart_count_mono (s : BotKeepAlive) (op : Op) :
    s.restart_count ≤ (step s op).restart_count := by
  cases op with
  | home => exact Nat.le_refl _
  | health _ => exact Nat.le_refl _
  | ping => exact Nat.le_refl _
  | keepAlive now => simp [step, keep_alive]
  | restartBots env =>
      simp [step, restart_bots_endpoint, restart_bots, kill_existing_bots,
        start_teacher_bot, start_student_bot]
  | monitorIter env =>
      simp only [step, monitor_iter]
      split
      · exact Nat.le_refl _
      · split
        · split <;>
            simp [restart_bots, kill_existing_bots, start_teacher_bot, start_student_bot]
        · exact Nat.le_refl _
  | start env =>
      simp [step, startSystem, kill_existing_bots, start_teacher_bot, start_student_bot]
  | stop => simp [step, stopSystem]

theorem run_ping_count_mono (ops : List Op) (s : BotKeepAlive) :
    s.ping_count ≤ (run s ops).ping_count := by
  induction ops generalizing s with
  | nil => exact Nat.le_refl _
  | cons op ops ih =>
      exact Nat.le_trans (step_ping_count_mono s op) (ih (step s op))

theorem run_restart_count_mono (ops : List Op) (s : BotKeepAlive) :
    s.restart_count ≤ (run s ops).restart_count := by
  induction ops generalizing s with
  | nil => exact Nat.le_refl _
  | cons op ops ih =>
      exact Nat.le_trans (step_restart_count_mono s op) (ih (step s op))

/-! ## Claims -/

/-- **C1.** Each `/keep-alive` call increments `ping_count` by exactly 1 and
sets `last_ping` to the call time; after N `/keep-alive` calls starting from
a fresh state, the `ping_count` a subsequent `/health` read reports equals N;
and `ping_count` never decreases across any sequence of operations.  The same
holds for `webserver.py`'s counter (its `/health` reports it under the key
`keepalive_count`). -/
theorem keepalive_count_exact_and_monotone :
    (∀ (s : BotKeepAlive) (now : Nat),
        (keep_alive s now).1.ping_count = s.ping_count + 1 ∧
        (keep_alive s now).1.last_ping = now) ∧
    (∀ (t0 : Nat) (ts : List Nat) (now : Nat),
        jsonLookup (health (applyKeepAlives (initState t0) ts) now) "ping_count" =
          some (.n ts.length)) ∧
    (∀ (s : BotKeepAlive) (ops : List Op), s.ping_count ≤ (run s ops).ping_count) ∧
    (∀ (t0 : Nat) (ts : List Nat) (now : Nat),
        jsonLookup (webserverHealth (applyWebKeepAlives (webserverInit t0) ts) now)
          "keepalive_count" = some (.n ts.length)) := by
  refine ⟨fun s now => ⟨rfl, rfl⟩, fun t0 ts now => ?_, fun s ops => run_ping_count_mono ops s,
    fun t0 ts now => ?_⟩
  · rw [health_lookup_ping_count, applyKeepAlives_ping_count]
    simp [initState]
  · have h : jsonLookup (webserverHealth (applyWebKeepAlives (webserverInit t0) ts) now)
        "keepalive_count" =
        some (.n (applyWebKeepAlives (webserverInit t0) ts).keepalive_count) := rfl
    rw [h, applyWebKeepAlives_count]
    simp [webserverInit]

/-- **C2.** `/health` reports status `healthy` iff every tracked worker's
last-known liveness is true, and `partial` otherwise — in the subprocess
supervisor (`keep_bot_alive_24x7.py`) and in the integrated supervisor
(`run_bots_24x7_integrated.py`) alike, regardless of which worker is the dead
one.  (`webserver.py` tracks no workers and always reports `healthy`.) -/
theorem health_status_healthy_iff :
    ∀ (s : BotKeepAlive) (i : IntegratedBot) (w : WebserverState) (now : Nat),
      (jsonLookup (health s now) "status" = some (.s "healthy") ↔
        (teacherAlive s = true ∧ studentAlive s = true)) ∧
      (jsonLookup (health s now) "status" = some (.s "partial") ↔
        ¬(teacherAlive s = true ∧ studentAlive s = true)) ∧
      (jsonLookup (integratedHealth i now) "status" = some (.s "healthy") ↔
        (i.teacher_running = true ∧ i.student_running = true)) ∧
      (jsonLookup (integratedHealth i now) "status" = some (.s "partial") ↔
        ¬(i.teacher_running = true ∧ i.student_running = true)) ∧
      jsonLookup (webserverHealth w now) "status" = some (.s "healthy") := by
  intro s i w now
  have hs : jsonLookup (health s now) "status" =
      some (.s (if teacherAlive s && studentAlive s then "healthy" else "partial")) := rfl
  have hi : jsonLookup (integratedHealth i now) "status" =
      some (.s (if i.teacher_running && i.student_running then "healthy" else "partial")) := rfl
  refine ⟨?_, ?_, ?_, ?_, rfl⟩
  · rw [hs]; cases ht : teacherAlive s <;> cases hu : studentAlive s <;> simp [ht, hu]
  · rw [hs]; cases ht : teacherAlive s <;> cases hu : studentAlive s <;> simp [ht, hu]
  · rw [hi]; cases ht : i.teacher_running <;> cases hu : i.student_running <;> simp [ht, hu]
  · rw [hi]; cases ht : i.teacher_running <;> cases hu : i.student_running <;> simp [ht, hu]

/-- **C3 (amended).** `restart_count` never decreases: every operation of the
subprocess supervisors leaves it unchanged or increments it, and each
invocation of `restart_bots` (in `keep_bot_alive_24x7.py` and
`run_cloud_24_7.py`) increments it by exactly 1.  The integrated supervisor
(`run_bots_24x7_integrated.py`), however, maintains no restart counter at
all: its `/health` body has no `restart_count` field. -/
theorem restart_count_monotone_and_exact :
    (∀ (s : BotKeepAlive) (env : LaunchEnv),
        (restart_bots s env).1.restart_count = s.restart_count + 1) ∧
    (∀ (c : CloudManager) (env : LaunchEnv),
        (cloud_restart_bots c env).1.restart_count = c.restart_count + 1) ∧
    (∀ (s : BotKeepAlive) (ops : List Op), s.restart_count ≤ (run s ops).restart_count) ∧
    (∀ (c : CloudManager) (env : MonitorEnv),
        c.restart_count ≤ (cloudMonitorIter c env).1.restart_count) ∧
    (∀ (i : IntegratedBot) (now : Nat),
        jsonLookup (integratedHealth i now) "restart_count" = none) := by
  refine ⟨fun s env => rfl, fun c env => rfl,
    fun s ops => run_restart_count_mono ops s, fun c env => ?_, fun i now => rfl⟩
  simp only [cloudMonitorIter]
  split
  · exact Nat.le_refl _
  · split
    · split <;>
        simp [cloud_restart_bots, cloud_kill_existing_bots,
          cloud_start_teacher_bot, cloud_start_student_bot]
    · exact Nat.le_refl _

/-- **C3 counterexample.** One full death-and-relaunch cycle in the
integrated supervisor (dead teacher thread detected, relaunch succeeds) does
not increment any restart count: the restart count its `/health` reports (as
`simple_external_pinger.check_health` reads it, defaulting to 0) is 0 both
before and after the cycle, not `before + 1`. -/
theorem restart_count_integrated_cycle_no_increment :
    readRestartCount (integratedHealth integratedDeadTeacher 5) = 0 ∧
    readRestartCount
      (integratedHealth (integratedMonitorIter integratedDeadTeacher true true) 5) = 0 ∧
    ¬ readRestartCount
        (integratedHealth (integratedMonitorIter integratedDeadTeacher true true) 5) =
      readRestartCount (integratedHealth integratedDeadTeacher 5) + 1 := by
  decide

/-- **C4 (amended).** Every HTTP route other than `/keep-alive` **and**
`/restart-bots` is side-effect-free: handling `/`, `/health` or `/ping`
leaves the supervisor state (and the `webserver.py` globals) unchanged. -/
theorem routes_side_effect_free :
    ∀ (s : BotKeepAlive) (w : WebserverState) (now : Nat) (env : LaunchEnv),
      (handleRoute .home s now env).1 = s ∧
      (handleRoute .health s now env).1 = s ∧
      (handleRoute .ping s now env).1 = s ∧
      (webserverHandle .home w now).1 = w ∧
      (webserverHandle .health w now).1 = w ∧
      (webserverHandle .ping w now).1 = w := by
  intro s w now env
  exact ⟨rfl, rfl, rfl, rfl, rfl, rfl⟩

/-- **C4 counterexample.** The `/restart-bots` route of
`keep_bot_alive_24x7.py` is a route other than `/keep-alive` yet it mutates
the state: on a state with both workers alive it bumps `restart_count` from
0 to 1 and replaces both worker handles. -/
theorem restart_route_mutates :
    (handleRoute .restartBots bothAliveState 5 okLaunch).1 ≠ bothAliveState ∧
    (handleRoute .restartBots bothAliveState 5 okLaunch).1.restart_count =
      bothAliveState.restart_count + 1 ∧
    (handleRoute .restartBots bothAliveState 5 okLaunch).1.teacher_process ≠
      bothAliveState.teacher_process := by
  decide

/-- **C7.** If an iteration of the supervisor's liveness check throws, the
`except` clause catches it: the state — in particular `restart_count` — is
unchanged, no restart happens, and the loop sleeps 60 s and proceeds to the
next poll; likewise in `run_cloud_24_7.py`'s monitor. -/
theorem poll_error_caught_no_restart :
    ∀ (s : BotKeepAlive) (c : CloudManager) (env : LaunchEnv),
      monitor_iter s { checkThrows := true, launch := env } = (s, 60) ∧
      (monitor_iter s { checkThrows := true, launch := env }).1.restart_count =
        s.restart_count ∧
      (monitor_iter s { checkThrows := true, launch := env }).1.running = s.running ∧
      cloudMonitorIter c { checkThrows := true, launch := env } = (c, 60) := by
  intro s c env
  exact ⟨rfl, rfl, rfl, rfl⟩

/-- **C9.** In the subprocess supervisor, death of a single worker restarts
both: with the teacher dead and the student alive (or vice versa), the next
monitor iteration increments `restart_count`, `kill_existing_bots`
terminates the surviving worker's process too, and both handles end up
replaced by the freshly launched processes. -/
theorem single_death_restarts_both :
    ∀ (tpid spid rc t0 lp pc : Nat) (running : Bool) (env : LaunchEnv),
      (let s : BotKeepAlive :=
        { teacher_process := some { pid := tpid, exited := true }
          student_process := some { pid := spid, exited := false }
          running := running, restart_count := rc, start_time := t0,
          last_ping := lp, ping_count := pc }
       teacherAlive s = false ∧ studentAlive s = true ∧
       (monitor_iter s { checkThrows := false, launch := env }).1.restart_count = rc + 1 ∧
       studentAlive (kill_existing_bots s) = false ∧
       (kill_existing_bots s).student_process = some { pid := spid, exited := true } ∧
       (monitor_iter s { checkThrows := false, launch := env }).1.student_process =
         some { pid := env.studentPid, exited := !env.studentSurvives } ∧
       (monitor_iter s { checkThrows := false, launch := env }).1.teacher_process =
         some { pid := env.teacherPid, exited := !env.teacherSurvives }) ∧
      (let s : BotKeepAlive :=
        { teacher_process := some { pid := tpid, exited := false }
          student_process := some { pid := spid, exited := true }
          running := running, restart_count := rc, start_time := t0,
          last_ping := lp, ping_count := pc }
       teacherAlive s = true ∧ studentAlive s = false ∧
       (monitor_iter s { checkThrows := false, launch := env }).1.restart_count = rc + 1 ∧
       teacherAlive (kill_existing_bots s) = false ∧
       (kill_existing_bots s).teacher_process = some { pid := tpid, exited := true } ∧
       (monitor_iter s { checkThrows := false, launch := env }).1.student_process =
         some { pid := env.studentPid, exited := !env.studentSurvives } ∧
       (monitor_iter s { checkThrows := false, launch := env }).1.teacher_process =
         some { pid := env.teacherPid, exited := !env.teacherSurvives }) := by
  intro tpid spid rc t0 lp pc running env
  obtain ⟨tP, tS, sP, sS⟩ := env
  constructor
  · refine ⟨rfl, rfl, ?_, rfl, rfl, ?_, ?_⟩ <;> cases tS <;> cases sS <;> rfl
  · refine ⟨rfl, rfl, ?_, rfl, rfl, ?_, ?_⟩ <;> cases tS <;> cases sS <;> rfl

/-- **C5 counterexample.** The cooldown does not separate *every* failed
launch attempt from the next launch attempt: in one monitor iteration of
`keep_bot_alive_24x7.py` starting at time 0 with the teacher dead and a
launch environment where the teacher relaunch fails, `restart_bots` makes a
failed teacher launch attempt at time 2 and the student launch attempt at
time 7 — only 5 seconds later, well under the 30-second cooldown. -/
theorem cooldown_within_cycle_counterexample :
    (2, Ev.launchTeacher false) ∈ (monitorIterEvents 0 false true teacherFailLaunch).1 ∧
    (7, Ev.launchStudent true) ∈ (monitorIterEvents 0 false true teacherFailLaunch).1 ∧
    7 < 2 + 30 := by
  decide

/-- **C5 (amended).** The 30-second cooldown separates a failed restart
*cycle* from the next one: in `keep_bot_alive_24x7.py`'s monitor loop, when
an iteration's restart fails (here: the teacher relaunch fails, the restart
completes at `t + 12`), every launch attempt of the following iteration
happens at least 30 seconds after that completion (in fact 152 s, from
`time.sleep(30)` plus the regular `time.sleep(120)`). -/
theorem cooldown_between_cycles :
    ∀ (t : Nat) (sa : Bool) (tp sp : Nat) (ss : Bool) (ta2 sa2 : Bool) (env2 : LaunchEnv),
      (((monitorIterEvents
            ((monitorIterEvents t false sa
              { teacherPid := tp, teacherSurvives := false,
                studentPid := sp, studentSurvives := ss }).2)
            ta2 sa2 env2).1.filter (fun te => isLaunch te.2)).all
        (fun te => Nat.ble (t + 12 + 30) te.1)) = true := by
  intro t sa tp sp ss ta2 sa2 env2
  obtain ⟨tP2, tS2, sP2, sS2⟩ := env2
  cases ta2 <;> cases sa2 <;> cases tS2 <;> cases sS2 <;>
    simp [monitorIterEvents, restartEvents, isLaunch, List.filter, Nat.ble_eq]

/-- **C6 counterexample.** `webserver.py`'s `/keep-alive` response does not
carry the claimed field set: it has exactly
`{status, message, ping_count, timestamp}` and no `uptime` field. -/
theorem webserver_keepalive_missing_uptime :
    jsonKeys (webserverKeepAlive (webserverInit 0) 5).2 =
      ["status", "message", "ping_count", "timestamp"] ∧
    "uptime" ∉ jsonKeys (webserverKeepAlive (webserverInit 0) 5).2 := by
  decide

/-- **C6 (amended).** Every `/keep-alive` handler returns HTTP 200 with a
JSON body whose `status` field is `"alive"` and which contains `status`,
`message`, `ping_count` and `timestamp`; but the exact field set differs per
server: `keep_bot_alive_24x7.py` has exactly those four plus `uptime`,
`webserver.py` exactly the four (no `uptime`), and
`run_bots_24x7_integrated.py` the five plus `teacher_running` and
`student_running`. -/
theorem keepalive_response_fields :
    ∀ (s : BotKeepAlive) (w : WebserverState) (i : IntegratedBot) (now : Nat),
      (keep_alive s now).2.code = 200 ∧
      jsonKeys (keep_alive s now).2 =
        ["status", "message", "ping_count", "timestamp", "uptime"] ∧
      jsonLookup (keep_alive s now).2 "status" = some (.s "alive") ∧
      (webserverKeepAlive w now).2.code = 200 ∧
      jsonKeys (webserverKeepAlive w now).2 =
        ["status", "message", "ping_count", "timestamp"] ∧
      jsonLookup (webserverKeepAlive w now).2 "status" = some (.s "alive") ∧
      (integratedKeepAlive i now).2.code = 200 ∧
      jsonKeys (integratedKeepAlive i now).2 =
        ["status", "message", "ping_count", "timestamp", "uptime",
         "teacher_running", "student_running"] ∧
      jsonLookup (integratedKeepAlive i now).2 "status" = some (.s "alive") := by
  intro s w i now
  exact ⟨rfl, rfl, rfl, rfl, rfl, rfl, rfl, rfl, rfl⟩

/-- **C8 counterexample.** `simple_external_pinger.py` in single-test mode
(`interval == 0`) can exit 1 even though both requests returned HTTP 200:
with a `/health` response of status 200 whose body reports
`teacher_running = false`, and a 200 `/keep-alive` response, it exits 1. -/
theorem simple_pinger_exit_counterexample :
    spSingleExit (some { code := 200, teacher_running := false, student_running := true })
      (.status 200) = 1 ∧
    spSingleExit (some { code := 200, teacher_running := false, student_running := true })
      (.status 200) ≠ 0 := by
  decide

/-- **C8 (amended).** `external_keepalive_monitor.py` in `once` mode exits 0
iff both the `/health` check and the `/keep-alive` ping returned HTTP 200,
and exits 1 otherwise.  `simple_external_pinger.py`'s single-test mode
additionally requires the `/health` body's two worker flags to be true. -/
theorem once_mode_exit_codes :
    ∀ (s : ExternalMonitor) (h p : ReqResult) (code : Nat) (tr sr : Bool) (pr : ReqResult),
      (emOnceExit s h p = 0 ↔ (h = .status 200 ∧ p = .status 200)) ∧
      (emOnceExit s h p = 0 ∨ emOnceExit s h p = 1) ∧
      (spSingleExit (some { code := code, teacher_running := tr, student_running := sr }) pr = 0 ↔
        (code = 200 ∧ tr = true ∧ sr = true ∧ pr = .status 200)) ∧
      spSingleExit none pr = 1 := by
  intro s h p code tr sr pr
  refine ⟨?_, ?_, ?_, ?_⟩
  · cases h with
    | status hc =>
        cases p with
        | status pc =>
            simp [emOnceExit, run_once, em_check_health, ping_service]
            by_cases h200 : hc = 200 <;> by_cases p200 : pc = 200 <;>
              simp [h200, p200]
        | timeout => simp [emOnceExit, run_once, em_check_health, ping_service]
        | connError => simp [emOnceExit, run_once, em_check_health, ping_service]
        | otherError => simp [emOnceExit, run_once, em_check_health, ping_service]
    | timeout => simp [emOnceExit, run_once, em_check_health, ping_service]
    | connError => simp [emOnceExit, run_once, em_check_health, ping_service]
    | otherError => simp [emOnceExit, run_once, em_check_health, ping_service]
  · unfold emOnceExit
    split <;> simp
  · cases pr with
    | status pc =>
        by_cases h200 : code = 200 <;> by_cases p200 : pc = 200 <;>
          cases tr <;> cases sr <;>
            simp [spSingleExit, sp_check_health, sp_ping_bot, h200, p200]
    | timeout => cases tr <;> cases sr <;> simp [spSingleExit, sp_check_health, sp_ping_bot]
    | connError => cases tr <;> cases sr <;> simp [spSingleExit, sp_check_health, sp_ping_bot]
    | otherError => cases tr <;> cases sr <;> simp [spSingleExit, sp_check_health, sp_ping_bot]
  · cases pr <;> simp [spSingleExit, sp_check_health, sp_ping_bot]

/-- **C10.** No success-rate computation divides by zero: in the
`simple_external_pinger.py` continuous loop every unguarded division's
divisor is the ping count right after the `ping_count % 6 == 0` test, hence
at least 6; and every other success-rate division (the pinger's final stats,
`external_keepalive_monitor.py`'s `print_stats`, whether called from
`run_continuous` or not) is guarded by `ping_count > 0`, so its divisor is
positive. -/
theorem success_rate_never_divides_by_zero :
    (∀ (pc sc : Nat) (oks : List Bool),
        (spLoopDivisors pc sc oks).all (fun d => Nat.ble 6 d) = true) ∧
    (∀ (pc : Nat), (spFinalDivisors pc).all (fun d => Nat.ble 1 d) = true) ∧
    (∀ (s : ExternalMonitor), (print_stats_divisors s).all (fun d => Nat.ble 1 d) = true) ∧
    (∀ (s : ExternalMonitor) (rs : List ReqResult),
        (em_continuous_divisors s rs).all (fun d => Nat.ble 1 d) = true) := by
  have hfinal : ∀ (pc : Nat), (spFinalDivisors pc).all (fun d => Nat.ble 1 d) = true := by
    intro pc
    unfold spFinalDivisors
    split
    · next h => simp only [List.all_cons, List.all_nil, Bool.and_true, Nat.ble_eq]; omega
    · rfl
  have hstats : ∀ (s : ExternalMonitor),
      (print_stats_divisors s).all (fun d => Nat.ble 1 d) = true := by
    intro s
    unfold print_stats_divisors
    split
    · next h => simp only [List.all_cons, List.all_nil, Bool.and_true, Nat.ble_eq]; omega
    · rfl
  refine ⟨?_, hfinal, hstats, ?_⟩
  · intro pc sc oks
    induction oks generalizing pc sc with
    | nil => rfl
    | cons ok rest ih =>
        simp only [spLoopDivisors]
        split
        · next hmod =>
            simp only [List.all_append, List.all_cons, List.all_nil, Bool.and_true,
              Bool.and_eq_true, Nat.ble_eq]
            refine ⟨?_, ih _ _⟩
            have : (pc + 1) % 6 = 0 := by simpa using hmod
            omega
        · simpa using ih _ _
  · intro s rs
    induction rs generalizing s with
    | nil => rfl
    | cons r rest ih =>
        simp only [em_continuous_divisors, em_continuous_iter]
        split
        · simp [List.all_append, hstats, ih]
        · simpa using ih _

end KeepAlive
